import Mathlib

/-!
Verification of the reactive-rendering core of mobx-react (`src/observer.js`).

The development shallowly embeds the observable props/state cell
(`makeObservableProp`), the reactive render wrapper (`makeComponentReactive`
/ `reactiveRender`), the reaction invalidation callback, the lifecycle mixin
(`reactiveMixin`), and the `observer` transform.  Stateful JavaScript is
modelled as explicit state passing over a per-instance state record together
with an event log recording the externally visible calls (change
notifications, forced updates, channel emissions, warnings).
-/

set_option linter.unusedVariables false

namespace MobxReact

/-- A JavaScript value sitting in a top-level field of a props/state object.
Primitives compare by value under strict equality (`===`); objects and
functions compare by reference, modelled as a numeric identity. -/
inductive JVal where
  | prim : Int → JVal
  | ref : Nat → JVal
  | undef : JVal
  deriving DecidableEq, Repr

/-- JavaScript strict equality (`===`) on field values. -/
def jsEq (a b : JVal) : Bool := a = b

/-- A JavaScript value stored in an observable props/state cell: a primitive,
an object carrying a reference identity together with its top-level fields,
or `undefined`. -/
inductive SVal where
  | prim : Int → SVal
  | obj : Nat → List (String × JVal) → SVal
  | undef : SVal
  deriving DecidableEq, Repr

/-- JavaScript strict equality (`===`) on cell values: primitives by value,
objects by reference identity. -/
def strictEqS : SVal → SVal → Bool
  | SVal.prim a, SVal.prim b => a = b
  | SVal.obj i _, SVal.obj j _ => i = j
  | SVal.undef, SVal.undef => true
  | _, _ => false

/-- JavaScript truthiness of a value: objects are always truthy,
`undefined` is falsy, and a numeric primitive is truthy unless zero. -/
def jsTruthy : SVal → Bool
  | SVal.prim n => n != 0
  | SVal.obj _ _ => true
  | SVal.undef => false

/-- Lookup of a key in a JavaScript object's top-level field list. -/
def lookupKey (k : String) : List (String × JVal) → Option JVal
  | [] => none
  | kv :: rest => if kv.1 = k then some kv.2 else lookupKey k rest

/-- Whether the binding `kv` of one object is matched in the field list of
the other: present under the same key with a strictly equal value. -/
def fieldMatches (fb : List (String × JVal)) (kv : String × JVal) : Bool :=
  match lookupKey kv.1 fb with
  | some v => jsEq kv.2 v
  | none => false

/-- Modelled from the spec: `shallowEqual` is imported from
`src/utils/utils`, which is not among the sources under analysis.  Per the
spec (section 4.2 edge case and glossary), shallow equality is
"scalar/reference equality per top-level key, not deep equality": two values
are shallow-equal when they are strictly equal, or when both are objects
with the same number of top-level keys and, for every key of the first,
a strictly equal value under that key in the second. -/
def shallowEqual (a b : SVal) : Bool :=
  if strictEqS a b then true
  else
    match a, b with
    | SVal.obj _ fa, SVal.obj _ fb =>
        fa.length == fb.length && fa.all (fieldMatches fb)
    | _, _ => false

/-- Whether the shallow comparison of two field lists finds the key `k`
differing: bound in exactly one of the lists, or bound in both with strictly
different values. -/
def differsAtKey (fa fb : List (String × JVal)) (k : String) : Bool :=
  match lookupKey k fa, lookupKey k fb with
  | some va, some vb => !jsEq va vb
  | some _, none => true
  | none, some _ => true
  | none, none => false

/-- Whether the shallow comparison of two field lists finds any differing
key. -/
def hasDifferingKey (fa fb : List (String × JVal)) : Bool :=
  (fa.map Prod.fst ++ fb.map Prod.fst).any (differsAtKey fa fb)

/-- The externally visible calls an operation performs, in order: the atom
interactions of the observable props/state cell, the host framework's forced
update entry point, the emissions on the render/errors reporting channels,
and the console warnings. -/
inductive Ev where
  | reportObserved
  | reportChanged
  | willReact
  | forceUpdate
  | renderStampStart
  | renderStampEnd
  | emitError : SVal → Ev
  | emitDestroy
  | warnStatic
  | warnInjector
  | warnPureComponent
  | warnCustomSCU
  deriving DecidableEq, Repr

/-- Per-instance state of an observer component.

`hasReaction`/`reactionDisposed` model `this.render[$mobx]`: whether a
`Reaction` is attached to the render and whether it has been disposed.
`isRenderingPending` is the closure variable of `makeComponentReactive`;
`isUnmounted`, `skipRender` and `isForcingUpdate` are the hidden instance
props `mobxIsUnmounted`, `skipRenderKey` and `isForcingUpdateKey`.
`propsValue`/`propsAtomCreated` are the value holder and the lazily created
atom of the observable cell installed by `makeObservableProp` (the `state`
cell is the identical machinery with its own holder/atom keys; one cell is
modelled).  `hasComponentWillReact` records whether the component defines
the optional `componentWillReact` hook, and `willReactUnmounts` whether that
user hook unmounts the component as a side effect (the case the source
guards against after invoking it). -/
structure InstState where
  hasReaction : Bool
  reactionDisposed : Bool
  isRenderingPending : Bool
  isUnmounted : Bool
  skipRender : Bool
  isForcingUpdate : Bool
  hasComponentWillReact : Bool
  willReactUnmounts : Bool
  propsValue : SVal
  propsAtomCreated : Bool
  deriving DecidableEq, Repr

/-- The getter installed by `makeObservableProp`: lazily creates the atom,
reports the read (`reportObserved`), and returns the stored value. -/
def propGet (s : InstState) : InstState × List Ev × SVal :=
  ({ s with propsAtomCreated := true }, [Ev.reportObserved], s.propsValue)

/-- The setter installed by `makeObservableProp`.  When the instance is not
inside a forced update and the new value is not shallow-equal to the stored
one: stores the value, raises `skipRender`, calls `reportChanged()` on the
(lazily created) atom, and lowers `skipRender` again — the `reportChanged`
event is emitted while `skipRender` is raised, which is what keeps the
synchronous invalidation (see `onInvalidate`) from requesting a redundant
forced update.  Otherwise it only stores the value. -/
def propSet (s : InstState) (v : SVal) : InstState × List Ev :=
  if !s.isForcingUpdate && !shallowEqual s.propsValue v then
    let stored := { s with propsValue := v }
    let raised := { stored with skipRender := true, propsAtomCreated := true }
    let lowered := { raised with skipRender := false }
    (lowered, [Ev.reportChanged])
  else
    ({ s with propsValue := v }, [])

/-- The invalidation callback registered on the `Reaction` in
`makeComponentReactive` (observer.js lines 159–181).  If a rendering is
already pending it does nothing.  Otherwise it marks rendering pending,
invokes `componentWillReact` when present (which may itself unmount the
component), and — unless the component is unmounted at that point — raises
`isForcingUpdate`, calls the host `forceUpdate` unless `skipRender` is
raised, and finally lowers `isForcingUpdate`, disposing the reaction when
the forced update threw (`fuThrows` models the host call failing). -/
def onInvalidate (fuThrows : Bool) (s : InstState) : InstState × List Ev :=
  if s.isRenderingPending then (s, [])
  else
    let sp := { s with isRenderingPending := true }
    let sh :=
      if sp.hasComponentWillReact then
        { sp with isUnmounted := sp.isUnmounted || sp.willReactUnmounts }
      else sp
    let evs := if sp.hasComponentWillReact then [Ev.willReact] else []
    if sh.isUnmounted then (sh, evs)
    else
      let sf := { sh with isForcingUpdate := true }
      if sf.skipRender then ({ sf with isForcingUpdate := false }, evs)
      else if fuThrows then
        ({ sf with isForcingUpdate := false, reactionDisposed := true },
          evs ++ [Ev.forceUpdate])
      else ({ sf with isForcingUpdate := false }, evs ++ [Ev.forceUpdate])

/-- Modelled from the spec (sections 3 and 6): the Tracking Session is the
observable engine's `Reaction`; delivering a dependency-change notification
invokes the registered callback only while the session exists and is not
disposed ("once disposed, it must never fire its change callback again";
"the disposed flag must be checked before acting"). -/
def deliverChange (fuThrows : Bool) (s : InstState) : InstState × List Ev :=
  if s.hasReaction && !s.reactionDisposed then onInvalidate fuThrows s
  else (s, [])

/-- Delivery of `n` consecutive synchronous dependency-change notifications,
with the emitted events concatenated in order. -/
def deliverN (fuThrows : Bool) : Nat → InstState → InstState × List Ev
  | 0, s => (s, [])
  | n + 1, s =>
      let r1 := deliverChange fuThrows s
      let r2 := deliverN fuThrows n r1.1
      (r2.1, r1.2 ++ r2.2)

/-- The tracked render (observer.js lines 109–132).  Clears the pending
flag first, runs the base render inside `reaction.track` (the base render's
outcome — returned value or thrown JS value — is the parameter `base`;
devtools mode stamps render start/end times).  The source's error guard is
`if (exception)`, a truthiness check on the caught value (line 126): for a
truthy thrown value it disposes the reaction, emits it on the
errors-reporting channel and rethrows it, but a falsy thrown value (`0`,
`""`, `null`, `undefined`) is swallowed — no dispose, no emission, and the
wrapper returns the never-assigned `rendering`, i.e. `undefined`. -/
def reactiveRender (dev : Bool) (base : Except SVal SVal) (s : InstState) :
    InstState × List Ev × Except SVal SVal :=
  let s1 := { s with isRenderingPending := false }
  let stamps : List Ev := if dev then [Ev.renderStampStart, Ev.renderStampEnd] else []
  match base with
  | Except.ok v => (s1, stamps, Except.ok v)
  | Except.error e =>
      if jsTruthy e then
        ({ s1 with reactionDisposed := true }, stamps ++ [Ev.emitError e],
          Except.error e)
      else (s1, stamps, Except.ok SVal.undef)

/-- First wrapped render (observer.js lines 106–186).  Under static
rendering it invokes the base render directly, touching nothing.  Otherwise
it initialises the hidden `skipRender`/`isForcingUpdate` props, creates the
`Reaction` with `onInvalidate` as its callback, installs `reactiveRender`
as the instance render, and invokes it. -/
def makeComponentReactive (staticRendering dev : Bool) (base : Except SVal SVal)
    (s : InstState) : InstState × List Ev × Except SVal SVal :=
  if staticRendering then (s, [], base)
  else
    reactiveRender dev base
      { s with skipRender := false, isForcingUpdate := false,
               hasReaction := true, reactionDisposed := false }

/-- `reactiveMixin.componentWillUnmount` (observer.js lines 192–207).
Returns immediately under static rendering.  Otherwise disposes the
reaction attached to the render when one exists (the `&&` guard: absent
reaction means no dispose call and no failure), marks the instance
unmounted, and emits the destroy event when devtools are enabled. -/
def componentWillUnmount (staticRendering dev : Bool) (s : InstState) :
    InstState × List Ev :=
  if staticRendering then (s, [])
  else
    let s1 := if s.hasReaction then { s with reactionDisposed := true } else s
    let s2 := { s1 with isUnmounted := true }
    (s2, if dev then [Ev.emitDestroy] else [])

/-- `reactiveMixin.shouldComponentUpdate` (observer.js lines 221–236), the
default update predicate: warns under static rendering, then requires an
update when the state reference changed (`this.state !== nextState`) or when
the new props are not shallow-equal to the old ones.  Reads of `this.state`
and `this.props` go through the observable accessors; their `reportObserved`
calls are not material here and are left off the log. -/
def shouldComponentUpdateDefault (staticRendering : Bool)
    (props state nextProps nextState : SVal) : Bool × List Ev :=
  let warns : List Ev := if staticRendering then [Ev.warnStatic] else []
  if !strictEqS state nextState then (true, warns)
  else (!shallowEqual props nextProps, warns)

/-- Identity of a `shouldComponentUpdate` function installed on a prototype:
either the mixin's own default predicate, or a user-supplied function
(functions compare by reference — `!==` at observer.js line 341 — so a
custom one carries its own identity). -/
inductive SCUKind where
  | defaultSCU : SCUKind
  | custom : Nat → SCUKind
  deriving DecidableEq, Repr

/-- The mutable prototype of a component class (or the plain object the
transform falls back to when the class has no prototype), with the aspects
the transform mutates: the render method and whether it has been replaced
by the reactive wrapper, the `shouldComponentUpdate` slot, whether the three
lifecycle methods have been patched with the mixin's, and whether the
observable `props`/`state` accessors have been installed. -/
structure Proto where
  hasRender : Bool
  renderWrapped : Bool
  scu : Option SCUKind
  lifecyclePatched : Bool
  propsAccessor : Bool
  stateAccessor : Bool
  deriving DecidableEq, Repr

/-- A class-based component as seen by the `observer` transform: the
`isMobxInjector` marker, whether its direct superclass (`__proto__`) is
React's `PureComponent`, its prototype, and the `isMobXReactObserver`
marker. -/
structure CompClass where
  isMobxInjector : Bool
  superIsPureComponent : Bool
  proto : Proto
  isMobXReactObserver : Bool
  deriving DecidableEq, Repr

/-- `mixinLifecycleEvents` (observer.js lines 332–348).  Patches
`componentDidMount`, `componentWillUnmount` and `componentDidUpdate` with
the mixin's versions (modelled from the spec where the patch combinator
lives in `src/utils/utils`, outside the sources under analysis: the mixin
method is run in addition to any existing one).  Installs the default
`shouldComponentUpdate` when the target has none; when the target already
has one that is not the mixin's own, surfaces a console warning and leaves
it in place. -/
def mixinLifecycleEvents (t : Proto) : Proto × List Ev :=
  let t1 := { t with lifecyclePatched := true }
  match t1.scu with
  | none => ({ t1 with scu := some SCUKind.defaultSCU }, [])
  | some k => (t1, if k = SCUKind.defaultSCU then [] else [Ev.warnCustomSCU])

/-- The possible arguments of the `observer` transform.  `nullish` is
`undefined` or `null`; `forwardRefC` a ref-forwarding wrapper whose `render`
property is or is not a function; `funcComp` a plain function component
(a function with no `prototype.render`, not a React class); `falsy` any
other falsy non-component value (`0`, `""`, `false`), which survives the
property accesses and fails the explicit validity check; `classC` a
class-based component (a constructor whose prototype has a render method,
or a plain object with a render method — both present the same mutable
target to the transform). -/
inductive ObsInput where
  | nullish : ObsInput
  | forwardRefC : Bool → ObsInput
  | funcComp : ObsInput
  | falsy : ObsInput
  | classC : CompClass → ObsInput
  deriving DecidableEq, Repr

/-- The errors the `observer` transform can raise synchronously:
the TypeError from reading `.isMobxInjector` off `undefined`/`null`
(observer.js line 272, reached before the explicit check at line 316);
the explicit error for a ForwardRef whose `render` is not a function
(line 289); and the explicit invalid-component error (line 317). -/
inductive ObsError where
  | typeErrorNullishAccess : ObsError
  | forwardRefRenderNotFunction : ObsError
  | invalidComponent : ObsError
  deriving DecidableEq, Repr

/-- What a successful `observer` call returns.  `upgraded c` encodes
`return componentClass` (observer.js line 329): the very argument, mutated
in place, with `c` its state after the mutation.  `forwardRefWrapper` and
`liteWrapper` encode the two paths that return a freshly created component
(lines 291 and 313). -/
inductive ObsResult where
  | upgraded : CompClass → ObsResult
  | forwardRefWrapper : ObsResult
  | liteWrapper : ObsResult
  deriving DecidableEq, Repr

/-- The `observer` transform (observer.js lines 271–330), returning the
warnings emitted followed by either the synchronously raised error or the
resulting component.  On the class path it warns about `inject`-wrapped and
`PureComponent`-derived classes (and continues), applies
`mixinLifecycleEvents`, marks the class `isMobXReactObserver`, installs the
observable `props` and `state` accessors, wraps `render` with the reactive
wrapper, and returns the same class. -/
def observer (input : ObsInput) : List Ev × Except ObsError ObsResult :=
  match input with
  | ObsInput.nullish => ([], Except.error ObsError.typeErrorNullishAccess)
  | ObsInput.forwardRefC renderIsFn =>
      if renderIsFn then ([], Except.ok ObsResult.forwardRefWrapper)
      else ([], Except.error ObsError.forwardRefRenderNotFunction)
  | ObsInput.funcComp => ([], Except.ok ObsResult.liteWrapper)
  | ObsInput.falsy => ([], Except.error ObsError.invalidComponent)
  | ObsInput.classC c =>
      let w1 : List Ev := if c.isMobxInjector then [Ev.warnInjector] else []
      let w2 : List Ev := if c.superIsPureComponent then [Ev.warnPureComponent] else []
      let m := mixinLifecycleEvents c.proto
      let p2 := { m.1 with propsAccessor := true, stateAccessor := true,
                           renderWrapped := true }
      (w1 ++ w2 ++ m.2,
        Except.ok (ObsResult.upgraded
          { c with proto := p2, isMobXReactObserver := true }))

/-- A freshly mounted, tracked observer instance: reaction alive, nothing
pending, not unmounted, no guard flag raised. -/
def mountedExample : InstState :=
  { hasReaction := true, reactionDisposed := false, isRenderingPending := false,
    isUnmounted := false, skipRender := false, isForcingUpdate := false,
    hasComponentWillReact := false, willReactUnmounts := false,
    propsValue := SVal.prim 0, propsAtomCreated := true }

/-- A plain component class not yet touched by the transform. -/
def plainProto : Proto :=
  { hasRender := true, renderWrapped := false, scu := none,
    lifecyclePatched := false, propsAccessor := false, stateAccessor := false }

/-- A component class whose direct superclass is React's `PureComponent`. -/
def pureExample : CompClass :=
  { isMobxInjector := false, superIsPureComponent := true,
    proto := plainProto, isMobXReactObserver := false }

/-- An ordinary component class (superclass `Component`). -/
def classExample : CompClass :=
  { isMobxInjector := false, superIsPureComponent := false,
    proto := plainProto, isMobXReactObserver := false }

/-- A component class that supplies its own `shouldComponentUpdate`. -/
def customScuExample : CompClass :=
  { classExample with proto := { plainProto with scu := some (SCUKind.custom 5) } }

/-- Whether an `observer` call returns a component at all (as opposed to
raising synchronously and registering nothing). -/
def registersComponent (input : ObsInput) : Bool :=
  match (observer input).2 with
  | Except.ok _ => true
  | Except.error _ => false

/-! ## Helper lemmas -/

theorem lookupKey_isSome_iff (k : String) (l : List (String × JVal)) :
    (lookupKey k l).isSome = true ↔ k ∈ l.map Prod.fst := by
  induction l with
  | nil => simp [lookupKey]
  | cons kv rest ih =>
      by_cases h : kv.1 = k
      · simp [lookupKey, h]
      · rw [lookupKey, if_neg h, ih, List.map_cons]
        constructor
        · exact fun hm => List.mem_cons_of_mem _ hm
        · intro hm
          rcases List.mem_cons.mp hm with he | hm2
          · exact absurd he.symm h
          · exact hm2

theorem lookupKey_mem (k : String) (l : List (String × JVal)) (v : JVal)
    (h : lookupKey k l = some v) : (k, v) ∈ l := by
  induction l with
  | nil => simp [lookupKey] at h
  | cons kv rest ih =>
      by_cases hk : kv.1 = k
      · simp [lookupKey, hk] at h
        subst hk h
        exact List.mem_cons_self _ _
      · simp [lookupKey, hk] at h
        exact List.mem_cons_of_mem _ (ih h)

theorem lookupKey_of_mem (l : List (String × JVal)) (kv : String × JVal)
    (hnd : (l.map Prod.fst).Nodup) (hm : kv ∈ l) :
    lookupKey kv.1 l = some kv.2 := by
  induction l with
  | nil => simp at hm
  | cons hd rest ih =>
      simp only [List.map_cons, List.nodup_cons] at hnd
      rcases List.mem_cons.mp hm with h | h
      · subst h
        simp [lookupKey]
      · have hne : hd.1 ≠ kv.1 := by
          intro he
          exact hnd.1 (he ▸ List.mem_map_of_mem Prod.fst h)
        simp [lookupKey, hne, ih hnd.2 h]

theorem keys_length_eq (A B : List String) (ha : A.Nodup) (hb : B.Nodup)
    (hab : ∀ x ∈ A, x ∈ B) (hba : ∀ x ∈ B, x ∈ A) : A.length = B.length := by
  have h1 : A.toFinset = B.toFinset := by
    apply Finset.Subset.antisymm <;> intro x hx
    · exact List.mem_toFinset.mpr (hab x (List.mem_toFinset.mp hx))
    · exact List.mem_toFinset.mpr (hba x (List.mem_toFinset.mp hx))
  calc A.length = A.toFinset.card := (List.toFinset_card_of_nodup ha).symm
    _ = B.toFinset.card := by rw [h1]
    _ = B.length := List.toFinset_card_of_nodup hb

theorem keys_subset_mem (A B : List String) (ha : A.Nodup) (hb : B.Nodup)
    (hab : ∀ x ∈ A, x ∈ B) (hlen : B.length ≤ A.length) :
    ∀ x ∈ B, x ∈ A := by
  have hsub : A.toFinset ⊆ B.toFinset := by
    intro x hx
    exact List.mem_toFinset.mpr (hab x (List.mem_toFinset.mp hx))
  have hcard : B.toFinset.card ≤ A.toFinset.card := by
    rw [List.toFinset_card_of_nodup ha, List.toFinset_card_of_nodup hb]
    exact hlen
  have heq : A.toFinset = B.toFinset := Finset.eq_of_subset_of_card_le hsub hcard
  intro x hx
  exact List.mem_toFinset.mp (heq ▸ List.mem_toFinset.mpr hx)

theorem no_differing_of_shallow (fa fb : List (String × JVal))
    (ha : (fa.map Prod.fst).Nodup) (hb : (fb.map Prod.fst).Nodup)
    (hlen : fa.length = fb.length)
    (hall : ∀ kv ∈ fa, fieldMatches fb kv = true) :
    ∀ k, differsAtKey fa fb k = false := by
  intro k
  unfold differsAtKey
  cases hfa : lookupKey k fa with
  | some va =>
      have hmem : (k, va) ∈ fa := lookupKey_mem k fa va hfa
      have hm := hall _ hmem
      unfold fieldMatches at hm
      cases hfb : lookupKey k fb with
      | some vb =>
          simp only [hfb] at hm
          simp [hm]
      | none => simp [hfb] at hm
  | none =>
      cases hfb : lookupKey k fb with
      | none => rfl
      | some vb =>
          exfalso
          have hsub : ∀ x ∈ fa.map Prod.fst, x ∈ fb.map Prod.fst := by
            intro x hx
            obtain ⟨v, hv⟩ :=
              Option.isSome_iff_exists.mp ((lookupKey_isSome_iff x fa).mpr hx)
            have hmemx : (x, v) ∈ fa := lookupKey_mem x fa v hv
            have hmx := hall _ hmemx
            unfold fieldMatches at hmx
            cases hfx : lookupKey x fb with
            | some w => exact (lookupKey_isSome_iff x fb).mp (by simp [hfx])
            | none => simp [hfx] at hmx
          have hlen2 : (fb.map Prod.fst).length ≤ (fa.map Prod.fst).length := by
            simp [List.length_map, hlen]
          have hkA : k ∈ fa.map Prod.fst :=
            keys_subset_mem _ _ ha hb hsub hlen2 k
              ((lookupKey_isSome_iff k fb).mp (by simp [hfb]))
          have hsome := (lookupKey_isSome_iff k fa).mpr hkA
          simp [hfa] at hsome

theorem shallow_of_no_differing (fa fb : List (String × JVal))
    (ha : (fa.map Prod.fst).Nodup) (hb : (fb.map Prod.fst).Nodup)
    (hd : ∀ k ∈ fa.map Prod.fst ++ fb.map Prod.fst, differsAtKey fa fb k = false) :
    fa.length = fb.length ∧ ∀ kv ∈ fa, fieldMatches fb kv = true := by
  have hall : ∀ kv ∈ fa, fieldMatches fb kv = true := by
    intro kv hm
    have hfa : lookupKey kv.1 fa = some kv.2 := lookupKey_of_mem fa kv ha hm
    have hk : kv.1 ∈ fa.map Prod.fst := List.mem_map_of_mem Prod.fst hm
    have hdk := hd kv.1 (List.mem_append.mpr (Or.inl hk))
    unfold differsAtKey at hdk
    rw [hfa] at hdk
    unfold fieldMatches
    cases hfb : lookupKey kv.1 fb with
    | some vb =>
        rw [hfb] at hdk
        simpa using hdk
    | none =>
        rw [hfb] at hdk
        simp at hdk
  refine ⟨?_, hall⟩
  have hsubAB : ∀ x ∈ fa.map Prod.fst, x ∈ fb.map Prod.fst := by
    intro x hx
    obtain ⟨v, hv⟩ := Option.isSome_iff_exists.mp ((lookupKey_isSome_iff x fa).mpr hx)
    have hmemx : (x, v) ∈ fa := lookupKey_mem x fa v hv
    have hmx := hall _ hmemx
    unfold fieldMatches at hmx
    cases hfx : lookupKey x fb with
    | some w => exact (lookupKey_isSome_iff x fb).mp (by simp [hfx])
    | none => simp [hfx] at hmx
  have hsubBA : ∀ x ∈ fb.map Prod.fst, x ∈ fa.map Prod.fst := by
    intro x hx
    obtain ⟨v, hv⟩ := Option.isSome_iff_exists.mp ((lookupKey_isSome_iff x fb).mpr hx)
    have hdx := hd x (List.mem_append.mpr (Or.inr hx))
    unfold differsAtKey at hdx
    rw [hv] at hdx
    cases hfx : lookupKey x fa with
    | some w => exact (lookupKey_isSome_iff x fa).mp (by simp [hfx])
    | none =>
        rw [hfx] at hdx
        simp at hdx
  have hlenk : (fa.map Prod.fst).length = (fb.map Prod.fst).length :=
    keys_length_eq _ _ ha hb hsubAB hsubBA
  simpa [List.length_map] using hlenk

/-- For objects with distinct reference identities and duplicate-free keys,
the shallow equality check fails exactly when some top-level key differs. -/
theorem shallowEqual_obj_eq (ia ib : Nat) (fa fb : List (String × JVal))
    (hne : ia ≠ ib) (ha : (fa.map Prod.fst).Nodup) (hb : (fb.map Prod.fst).Nodup) :
    shallowEqual (SVal.obj ia fa) (SVal.obj ib fb) = !hasDifferingKey fa fb := by
  have hstrict : strictEqS (SVal.obj ia fa) (SVal.obj ib fb) = false := by
    simp [strictEqS, hne]
  have hLHS : shallowEqual (SVal.obj ia fa) (SVal.obj ib fb)
      = (fa.length == fb.length && fa.all (fieldMatches fb)) := by
    unfold shallowEqual
    rw [hstrict]
    simp
  rw [hLHS]
  cases hD : hasDifferingKey fa fb with
  | false =>
      have hd : ∀ k ∈ fa.map Prod.fst ++ fb.map Prod.fst,
          differsAtKey fa fb k = false := by
        unfold hasDifferingKey at hD
        have hd0 := List.any_eq_false.mp hD
        exact fun k hk => by simpa using hd0 k hk
      obtain ⟨hlen, hall⟩ := shallow_of_no_differing fa fb ha hb hd
      simp only [Bool.not_false, Bool.and_eq_true]
      exact ⟨by simp [hlen], List.all_eq_true.mpr hall⟩
  | true =>
      simp only [Bool.not_true]
      unfold hasDifferingKey at hD
      obtain ⟨k, hk, hdk⟩ := List.any_eq_true.mp hD
      refine Bool.eq_false_iff.mpr (fun hTrue => ?_)
      rw [Bool.and_eq_true] at hTrue
      obtain ⟨hlenB, hallB⟩ := hTrue
      have hall : ∀ kv ∈ fa, fieldMatches fb kv = true := List.all_eq_true.mp hallB
      have hlen : fa.length = fb.length := by simpa using hlenB
      have hnd := no_differing_of_shallow fa fb ha hb hlen hall
      simp [hnd k] at hdk

theorem deliverChange_of_pending (fuT : Bool) (t : InstState)
    (h : t.isRenderingPending = true) : deliverChange fuT t = (t, []) := by
  by_cases hr : (t.hasReaction && !t.reactionDisposed) = true <;>
    simp [deliverChange, onInvalidate, hr, h]

theorem deliverChange_inactive (fuT : Bool) (t : InstState)
    (h : (t.hasReaction && !t.reactionDisposed) = false) :
    deliverChange fuT t = (t, []) := by
  simp [deliverChange, h]

theorem deliverN_of_pending (fuT : Bool) (n : Nat) (t : InstState)
    (h : t.isRenderingPending = true) : deliverN fuT n t = (t, []) := by
  induction n with
  | zero => simp [deliverN]
  | succ k ih => simp [deliverN, deliverChange_of_pending fuT t h, ih]

theorem deliverN_inactive (fuT : Bool) (n : Nat) (t : InstState)
    (h : (t.hasReaction && !t.reactionDisposed) = false) :
    deliverN fuT n t = (t, []) := by
  induction n with
  | zero => simp [deliverN]
  | succ k ih => simp [deliverN, deliverChange_inactive fuT t h, ih]

theorem deliverChange_first (fuT : Bool) (s : InstState)
    (hr : s.hasReaction = true) (hd : s.reactionDisposed = false)
    (hp : s.isRenderingPending = false) (hu : s.isUnmounted = false)
    (hs : s.skipRender = false) (hw : s.willReactUnmounts = false) :
    (deliverChange fuT s).1.isRenderingPending = true ∧
    (deliverChange fuT s).2.count Ev.forceUpdate = 1 := by
  cases hcw : s.hasComponentWillReact <;> cases fuT <;>
    simp [deliverChange, onInvalidate, hr, hd, hp, hu, hs, hw, hcw, List.count_cons]

/-! ## Claims -/

/-- C1: for every write `v` to the observable props/state cell of an
observer component, the value is always stored; when the
"is forcing update" flag is set or `v` is shallow-equal to the stored
value, no change notification fires, and otherwise `reportChanged` fires
exactly once, synchronously, before the setter returns. -/
theorem C1_observable_prop_write (s : InstState) (v : SVal) :
    (propSet s v).1.propsValue = v ∧
    ((s.isForcingUpdate = true ∨ shallowEqual s.propsValue v = true) →
      (propSet s v).2 = []) ∧
    (s.isForcingUpdate = false → shallowEqual s.propsValue v = false →
      (propSet s v).2 = [Ev.reportChanged]) := by
  by_cases hf : s.isForcingUpdate <;>
    by_cases he : shallowEqual s.propsValue v <;>
      simp [propSet, hf, he]

/-- C1 witness: a non-forcing write of a fresh value stores it and fires
exactly one change notification; a forcing write stores without
notifying. -/
theorem C1_observable_prop_write_witness :
    ((propSet mountedExample (SVal.prim 1)).1.propsValue = SVal.prim 1 ∧
      (propSet mountedExample (SVal.prim 1)).2 = [Ev.reportChanged]) ∧
    (propSet { mountedExample with isForcingUpdate := true } (SVal.prim 1)).2 = [] :=
  ⟨⟨(C1_observable_prop_write mountedExample (SVal.prim 1)).1,
    (C1_observable_prop_write mountedExample (SVal.prim 1)).2.2 rfl (by decide)⟩,
   (C1_observable_prop_write { mountedExample with isForcingUpdate := true }
      (SVal.prim 1)).2.1 (Or.inl rfl)⟩

/-- C2: for any sequence of `n ≥ 1` synchronous dependency-change
notifications delivered to a mounted observer component between two
renders, exactly one forced re-render is requested; the render-pending
flag is set by the first notification, is never cleared at notification
time, and is cleared at the start of the next render invocation. -/
theorem C2_notification_coalescing (fuT : Bool) (n : Nat) (s : InstState)
    (hn : 1 ≤ n) (hr : s.hasReaction = true) (hd : s.reactionDisposed = false)
    (hp : s.isRenderingPending = false) (hu : s.isUnmounted = false)
    (hs : s.skipRender = false) (hw : s.willReactUnmounts = false) :
    ((deliverN fuT n s).2.count Ev.forceUpdate = 1 ∧
      (deliverN fuT n s).1.isRenderingPending = true ∧
      (deliverChange fuT s).1.isRenderingPending = true) ∧
    (∀ t : InstState, t.isRenderingPending = true →
      deliverChange fuT t = (t, [])) ∧
    (∀ dev : Bool, ∀ b : Except SVal SVal,
      (reactiveRender dev b s).1.isRenderingPending = false) := by
  obtain ⟨m, rfl⟩ : ∃ m, n = m + 1 := ⟨n - 1, by omega⟩
  have hfirst := deliverChange_first fuT s hr hd hp hu hs hw
  have hrest := deliverN_of_pending fuT m (deliverChange fuT s).1 hfirst.1
  refine ⟨⟨?_, ?_, hfirst.1⟩, fun t ht => deliverChange_of_pending fuT t ht, ?_⟩
  · simp [deliverN, hrest, hfirst.2]
  · simp [deliverN, hrest, hfirst.1]
  · intro dev b
    cases b with
    | ok v => simp [reactiveRender]
    | error e => by_cases ht : jsTruthy e <;> simp [reactiveRender, ht]

/-- C2 witness: three consecutive notifications to a freshly mounted
instance request exactly one forced update and leave the pending flag
set; the next render clears it. -/
theorem C2_notification_coalescing_witness :
    (deliverN false 3 mountedExample).2.count Ev.forceUpdate = 1 ∧
    (deliverN false 3 mountedExample).1.isRenderingPending = true ∧
    (reactiveRender false (Except.ok (SVal.prim 0))
      mountedExample).1.isRenderingPending = false :=
  ⟨(C2_notification_coalescing false 3 mountedExample (by decide) rfl rfl rfl rfl
      rfl rfl).1.1,
   (C2_notification_coalescing false 3 mountedExample (by decide) rfl rfl rfl rfl
      rfl rfl).1.2.1,
   (C2_notification_coalescing false 3 mountedExample (by decide) rfl rfl rfl rfl
      rfl rfl).2.2 false (Except.ok (SVal.prim 0))⟩

/-- C3 counterexample: a falsy thrown value — here `throw 0` from the base
render of a freshly mounted instance — is swallowed by the `if (exception)`
truthiness guard: the Reaction is not disposed, nothing is emitted on the
errors-reporting channel, the wrapper returns `undefined` instead of
rethrowing, and a subsequent dependency change still requests a render. -/
theorem C3_render_error_counterexample :
    (reactiveRender false (Except.error (SVal.prim 0))
      mountedExample).1.reactionDisposed = false ∧
    (reactiveRender false (Except.error (SVal.prim 0)) mountedExample).2.1 = [] ∧
    (reactiveRender false (Except.error (SVal.prim 0)) mountedExample).2.2 =
      Except.ok SVal.undef ∧
    (deliverN false 1 (reactiveRender false (Except.error (SVal.prim 0))
      mountedExample).1).2.count Ev.forceUpdate = 1 :=
  ⟨rfl, rfl, rfl, rfl⟩

/-- C3 (amended): when the component's own render logic throws a truthy
value — the normal case, every JS `Error` object being truthy — the tracked
render disposes the Reaction immediately, emits the error on the
errors-reporting channel, and rethrows the same error; afterwards
delivering any number of dependency-change notifications changes nothing
and requests no render.  (A falsy thrown value slips past the
`if (exception)` truthiness guard and is swallowed instead.) -/
theorem C3_render_error_disposes (dev : Bool) (e : SVal) (s : InstState)
    (n : Nat) (fuT : Bool) (ht : jsTruthy e = true) :
    (reactiveRender dev (Except.error e) s).1.reactionDisposed = true ∧
    Ev.emitError e ∈ (reactiveRender dev (Except.error e) s).2.1 ∧
    (reactiveRender dev (Except.error e) s).2.2 = Except.error e ∧
    deliverN fuT n (reactiveRender dev (Except.error e) s).1 =
      ((reactiveRender dev (Except.error e) s).1, []) := by
  have hnd : ((reactiveRender dev (Except.error e) s).1.hasReaction &&
      !(reactiveRender dev (Except.error e) s).1.reactionDisposed) = false := by
    cases dev <;> simp [reactiveRender, ht]
  refine ⟨?_, ?_, ?_, deliverN_inactive fuT n _ hnd⟩ <;>
    cases dev <;> simp [reactiveRender, ht]

/-- C3 amended-claim witness: a truthy thrown value (the primitive `1`) on
a freshly mounted instance disposes the Reaction, is emitted, is rethrown,
and two further notifications change nothing. -/
theorem C3_render_error_disposes_witness :
    jsTruthy (SVal.prim 1) = true ∧
    (reactiveRender false (Except.error (SVal.prim 1))
      mountedExample).1.reactionDisposed = true ∧
    (reactiveRender false (Except.error (SVal.prim 1)) mountedExample).2.2 =
      Except.error (SVal.prim 1) ∧
    deliverN false 2 (reactiveRender false (Except.error (SVal.prim 1))
        mountedExample).1 =
      ((reactiveRender false (Except.error (SVal.prim 1)) mountedExample).1, []) :=
  ⟨by decide,
   (C3_render_error_disposes false (SVal.prim 1) mountedExample 2 false
      (by decide)).1,
   (C3_render_error_disposes false (SVal.prim 1) mountedExample 2 false
      (by decide)).2.2.1,
   (C3_render_error_disposes false (SVal.prim 1) mountedExample 2 false
      (by decide)).2.2.2⟩

/-- C4: after `componentWillUnmount` runs outside static-rendering mode,
the Reaction (when one is attached to the render) is disposed and the
component is marked unmounted, so any number of further dependency changes
triggers nothing; a second run leaves the state unchanged, and the handler
is well-defined with no Reaction attached. -/
theorem C4_unmount_terminal (dev : Bool) (s : InstState) (n : Nat) (fuT : Bool) :
    (componentWillUnmount false dev s).1.isUnmounted = true ∧
    (s.hasReaction = true →
      (componentWillUnmount false dev s).1.reactionDisposed = true) ∧
    deliverN fuT n (componentWillUnmount false dev s).1 =
      ((componentWillUnmount false dev s).1, []) ∧
    (componentWillUnmount false dev (componentWillUnmount false dev s).1).1 =
      (componentWillUnmount false dev s).1 := by
  have hnd : ((componentWillUnmount false dev s).1.hasReaction &&
      !(componentWillUnmount false dev s).1.reactionDisposed) = false := by
    cases hr : s.hasReaction <;> simp [componentWillUnmount, hr]
  refine ⟨?_, ?_, deliverN_inactive fuT n _ hnd, ?_⟩ <;>
    cases hr : s.hasReaction <;> simp [componentWillUnmount, hr]

/-- C4 witness: unmounting a mounted instance (with an attached Reaction,
devtools off) marks it unmounted, disposes the Reaction, and five further
notifications do nothing. -/
theorem C4_unmount_terminal_witness :
    (componentWillUnmount false false mountedExample).1.isUnmounted = true ∧
    (componentWillUnmount false false mountedExample).1.reactionDisposed = true ∧
    deliverN false 5 (componentWillUnmount false false mountedExample).1 =
      ((componentWillUnmount false false mountedExample).1, []) :=
  ⟨(C4_unmount_terminal false mountedExample 5 false).1,
   (C4_unmount_terminal false mountedExample 5 false).2.1 rfl,
   (C4_unmount_terminal false mountedExample 5 false).2.2.1⟩

/-- C5: under the global static-rendering flag the wrapped render invokes
the original render directly — same result, state untouched, no Reaction
created — and a component that has never had a Reaction reacts to no number
of dependency changes with any render request. -/
theorem C5_static_rendering_no_tracking (dev : Bool) (b : Except SVal SVal)
    (s : InstState) (n : Nat) (fuT : Bool) (h : s.hasReaction = false) :
    makeComponentReactive true dev b s = (s, [], b) ∧
    deliverN fuT n s = (s, []) := by
  exact ⟨by simp [makeComponentReactive],
    deliverN_inactive fuT n s (by simp [h])⟩

/-- C5 witness: a static render of an instance with no Reaction returns the
base rendering untouched, and four dependency changes trigger nothing. -/
theorem C5_static_rendering_no_tracking_witness :
    makeComponentReactive true false (Except.ok (SVal.prim 7))
      { mountedExample with hasReaction := false } =
      ({ mountedExample with hasReaction := false }, [], Except.ok (SVal.prim 7)) ∧
    deliverN false 4 { mountedExample with hasReaction := false } =
      ({ mountedExample with hasReaction := false }, []) :=
  C5_static_rendering_no_tracking false (Except.ok (SVal.prim 7))
    { mountedExample with hasReaction := false } 4 false rfl

/-- C10: when the global static-rendering flag is enabled,
`componentWillUnmount` returns immediately: the instance state is unchanged
(in particular it is not marked unmounted and nothing is disposed) and no
destroy event is emitted even with devtools enabled. -/
theorem C10_static_unmount_noop (dev : Bool) (s : InstState) :
    componentWillUnmount true dev s = (s, []) := by
  simp [componentWillUnmount]

/-- C6: a component without its own `shouldComponentUpdate` gets the default
predicate installed (no warning); a component with a custom one keeps it and
a warning is surfaced; and the default predicate returns `true` exactly when
the state reference changed or the shallow comparison of new vs. old props
finds a differing key. -/
theorem C6_default_update_predicate (c : CompClass) (k : Nat) (st : Bool)
    (ia ib : Nat) (fa fb : List (String × JVal)) (stA stB : SVal)
    (hne : ia ≠ ib) (ha : (fa.map Prod.fst).Nodup)
    (hb : (fb.map Prod.fst).Nodup) :
    (c.proto.scu = none →
      ∃ c2, (observer (ObsInput.classC c)).2 = Except.ok (ObsResult.upgraded c2) ∧
        c2.proto.scu = some SCUKind.defaultSCU ∧
        Ev.warnCustomSCU ∉ (observer (ObsInput.classC c)).1) ∧
    (c.proto.scu = some (SCUKind.custom k) →
      ∃ c2, (observer (ObsInput.classC c)).2 = Except.ok (ObsResult.upgraded c2) ∧
        c2.proto.scu = some (SCUKind.custom k) ∧
        Ev.warnCustomSCU ∈ (observer (ObsInput.classC c)).1) ∧
    ((shouldComponentUpdateDefault st (SVal.obj ia fa) stA
        (SVal.obj ib fb) stB).1 = true ↔
      (strictEqS stA stB = false ∨ hasDifferingKey fa fb = true)) := by
  refine ⟨?_, ?_, ?_⟩
  · intro hscu
    have hm : mixinLifecycleEvents c.proto =
        ({ c.proto with lifecyclePatched := true,
                        scu := some SCUKind.defaultSCU }, []) := by
      simp [mixinLifecycleEvents, hscu]
    refine ⟨_, rfl, ?_, ?_⟩
    · simp [observer, hm]
    · cases hi : c.isMobxInjector <;> cases hpc : c.superIsPureComponent <;>
        simp [observer, hm, hi, hpc]
  · intro hscu
    have hm : mixinLifecycleEvents c.proto =
        ({ c.proto with lifecyclePatched := true }, [Ev.warnCustomSCU]) := by
      simp [mixinLifecycleEvents, hscu]
    refine ⟨_, rfl, ?_, ?_⟩
    · simp [observer, hm, hscu]
    · simp [observer, hm]
  · have hsh := shallowEqual_obj_eq ia ib fa fb hne ha hb
    unfold shouldComponentUpdateDefault
    cases hst : strictEqS stA stB
    · simp [hst]
    · simp [hst, hsh]

/-- C6 witness: the transform installs the default predicate on a component
without one, and the default predicate demands an update for shallowly
differing props under an unchanged state reference. -/
theorem C6_default_update_predicate_witness :
    (∃ c2, (observer (ObsInput.classC classExample)).2 =
        Except.ok (ObsResult.upgraded c2) ∧
      c2.proto.scu = some SCUKind.defaultSCU ∧
      Ev.warnCustomSCU ∉ (observer (ObsInput.classC classExample)).1) ∧
    (shouldComponentUpdateDefault false (SVal.obj 1 [("a", JVal.prim 1)])
        (SVal.prim 0) (SVal.obj 2 [("a", JVal.prim 2)]) (SVal.prim 0)).1 = true :=
  ⟨(C6_default_update_predicate classExample 0 false 1 2 [("a", JVal.prim 1)]
      [("a", JVal.prim 2)] (SVal.prim 0) (SVal.prim 0) (by decide) (by decide)
      (by decide)).1 rfl,
   (C6_default_update_predicate classExample 0 false 1 2 [("a", JVal.prim 1)]
      [("a", JVal.prim 2)] (SVal.prim 0) (SVal.prim 0) (by decide) (by decide)
      (by decide)).2.2.mpr (Or.inr (by decide))⟩

/-- C7 counterexample: applying `observer` to a class whose direct
superclass is `PureComponent` does not raise an error and does not refuse
the upgrade — it returns the upgraded class, a console warning being the
only other effect. -/
theorem C7_pure_component_counterexample :
    (observer (ObsInput.classC pureExample)).2 =
      Except.ok (ObsResult.upgraded
        { isMobxInjector := false, superIsPureComponent := true,
          proto := { hasRender := true, renderWrapped := true,
                     scu := some SCUKind.defaultSCU, lifecyclePatched := true,
                     propsAccessor := true, stateAccessor := true },
          isMobXReactObserver := true }) ∧
    (observer (ObsInput.classC pureExample)).1 = [Ev.warnPureComponent] :=
  ⟨rfl, rfl⟩

/-- C7 (amended): applying the observer transform to a component class whose
direct superclass is `PureComponent` surfaces a console warning — not an
error — and proceeds with the upgrade. -/
theorem C7_pure_component_warning (c : CompClass)
    (h : c.superIsPureComponent = true) :
    Ev.warnPureComponent ∈ (observer (ObsInput.classC c)).1 ∧
    ∃ c2, (observer (ObsInput.classC c)).2 = Except.ok (ObsResult.upgraded c2) ∧
      c2.isMobXReactObserver = true := by
  constructor
  · simp [observer, h]
  · exact ⟨_, rfl, rfl⟩

/-- C7 amended-claim witness on a concrete `PureComponent`-derived class. -/
theorem C7_pure_component_warning_witness :
    Ev.warnPureComponent ∈ (observer (ObsInput.classC pureExample)).1 ∧
    ∃ c2, (observer (ObsInput.classC pureExample)).2 =
        Except.ok (ObsResult.upgraded c2) ∧ c2.isMobXReactObserver = true :=
  C7_pure_component_warning pureExample rfl

/-- C8: for `undefined`/`null` inputs and for a ForwardRef wrapper whose
inner render is not a function, the `observer` call raises an error
synchronously and registers no component. -/
theorem C8_invalid_inputs :
    (observer ObsInput.nullish).2 =
      Except.error ObsError.typeErrorNullishAccess ∧
    (observer (ObsInput.forwardRefC false)).2 =
      Except.error ObsError.forwardRefRenderNotFunction ∧
    registersComponent ObsInput.nullish = false ∧
    registersComponent (ObsInput.forwardRefC false) = false :=
  ⟨rfl, rfl, rfl, rfl⟩

/-- C9: on a class-based component with a render method the transform
returns the very argument (`ObsResult.upgraded` encodes
`return componentClass`: the same object, mutated in place, not a wrapper)
with its render replaced by the reactive wrapper, lifecycle methods patched,
observable props/state accessors installed, and `isMobXReactObserver`
set. -/
theorem C9_class_upgraded_in_place (c : CompClass)
    (h : c.proto.hasRender = true) :
    ∃ c2, (observer (ObsInput.classC c)).2 = Except.ok (ObsResult.upgraded c2) ∧
      c2.isMobXReactObserver = true ∧ c2.proto.renderWrapped = true ∧
      c2.proto.lifecyclePatched = true ∧ c2.proto.propsAccessor = true ∧
      c2.proto.stateAccessor = true ∧ c2.proto.hasRender = true := by
  have hm : (mixinLifecycleEvents c.proto).1.lifecyclePatched = true ∧
      (mixinLifecycleEvents c.proto).1.hasRender = c.proto.hasRender := by
    cases hscu : c.proto.scu <;> simp [mixinLifecycleEvents, hscu]
  exact ⟨_, rfl, rfl, rfl, hm.1, rfl, rfl, hm.2.trans h⟩

/-- C9 witness on a concrete plain component class. -/
theorem C9_class_upgraded_in_place_witness :
    ∃ c2, (observer (ObsInput.classC classExample)).2 =
        Except.ok (ObsResult.upgraded c2) ∧
      c2.isMobXReactObserver = true ∧ c2.proto.renderWrapped = true ∧
      c2.proto.lifecyclePatched = true ∧ c2.proto.propsAccessor = true ∧
      c2.proto.stateAccessor = true ∧ c2.proto.hasRender = true :=
  C9_class_upgraded_in_place classExample rfl

end MobxReact
